import Mathlib

/-!
Verification development for the pdf-api repository: a shallow embedding of
the Markdown-to-PDF service (three server variants: a Playwright-based reflow
renderer, a PDFKit-based direct-draw renderer, and a Puppeteer-based reflow
renderer) together with theorems settling the specification claims.

Strings are modelled as `List Char`; each definition mirrors the JavaScript
source line by line.  Behavior supplied by external libraries (PDFKit's
automatic text flow, the `cors` package default, page-size presets) is
represented by explicitly marked model parameters or constants.
-/

namespace PdfApi

/-- The JavaScript `\s` character class, restricted to the ASCII whitespace
characters (sufficient for the inputs considered here). -/
def isJsWhitespace (c : Char) : Bool :=
  c = ' ' || c = '\t' || c = '\n' || c = '\r' || c = '\x0b' || c = '\x0c'

/-! ## Frontmatter stripper

`markdown.replace(/^---[\s\S]*?---\s*/, '')` from the Playwright variant
(src/server.js lines 67-68) and the Puppeteer variant (src/unnamed/part_001
lines 47-48).  The PDFKit variant (src/server.js lines 444-447) guards the
same replacement with `/^---\n/.test(markdown)`. -/

/-- The anchored `^---` test: the input starts with three dashes. -/
def startsWithDashes (l : List Char) : Bool :=
  ['-', '-', '-'].isPrefixOf l

/-- Index of the first position at which `---` occurs (prefix of the
remaining list); `none` when there is no occurrence.  This is the closing
delimiter search performed by the lazy `[\s\S]*?---` part of the regex. -/
def findDashes : List Char → Option Nat
  | [] => none
  | c :: rest =>
    if startsWithDashes (c :: rest) then some 0
    else (findDashes rest).map (· + 1)

/-- `markdown.replace(/^---[\s\S]*?---\s*/, '')`: if the input starts with
`---` and `---` occurs again at index ≥ 3, remove through the end of the
first such occurrence and any following whitespace run; otherwise the
replacement does not fire and the input is unchanged. -/
def stripFrontmatterL (l : List Char) : List Char :=
  if startsWithDashes l then
    match findDashes (l.drop 3) with
    | none => l
    | some k => (l.drop (k + 6)).dropWhile isJsWhitespace
  else l

/-- The PDFKit variant's stripper: the replacement additionally requires the
input to begin with `---` followed immediately by a newline
(`/^---\n/.test(markdown)`). -/
def stripFrontmatterGuardedL (l : List Char) : List Char :=
  if ['-', '-', '-', '\n'].isPrefixOf l then stripFrontmatterL l else l

/-- The first line of the input, used to state the spec's phrase
"begins with a line consisting solely of `---`". -/
def firstLineL (l : List Char) : List Char :=
  l.takeWhile (fun c => c ≠ '\n')

lemma stripFrontmatterL_of_not_dashes {l : List Char}
    (h : startsWithDashes l = false) : stripFrontmatterL l = l := by
  unfold stripFrontmatterL
  rw [if_neg]
  simp [h]

lemma stripFrontmatterL_of_no_close {l : List Char}
    (h : findDashes (l.drop 3) = none) : stripFrontmatterL l = l := by
  unfold stripFrontmatterL
  split
  · rw [h]
  · rfl

lemma three_le_length_of_startsWithDashes {l : List Char}
    (h : startsWithDashes l = true) : 3 ≤ l.length := by
  have hp : ['-', '-', '-'] <+: l := by
    exact List.isPrefixOf_iff_prefix.mp h
  simpa using hp.length_le

lemma stripFrontmatterL_ne_of_match {l : List Char}
    (h : startsWithDashes l = true) {k : Nat}
    (hk : findDashes (l.drop 3) = some k) :
    stripFrontmatterL l ≠ l := by
  have hlen : 3 ≤ l.length := three_le_length_of_startsWithDashes h
  have hs : stripFrontmatterL l = (l.drop (k + 6)).dropWhile isJsWhitespace := by
    unfold stripFrontmatterL
    rw [if_pos h, hk]
  intro heq
  have hlt : (stripFrontmatterL l).length < l.length := by
    rw [hs]
    calc ((l.drop (k + 6)).dropWhile isJsWhitespace).length
        ≤ (l.drop (k + 6)).length := (List.dropWhile_suffix _).length_le
      _ = l.length - (k + 6) := List.length_drop _ _
      _ < l.length := Nat.sub_lt (by omega) (by omega)
  rw [heq] at hlt
  exact lt_irrefl _ hlt

/-- Characterization of when the frontmatter replacement leaves the input
unchanged: exactly when the input does not start with `---`, or no second
`---` occurs at index ≥ 3. -/
lemma stripFrontmatterL_eq_self_iff (l : List Char) :
    stripFrontmatterL l = l ↔
      ¬(startsWithDashes l = true ∧ (findDashes (l.drop 3)).isSome = true) := by
  constructor
  · intro heq hcontra
    obtain ⟨h1, h2⟩ := hcontra
    obtain ⟨k, hk⟩ := Option.isSome_iff_exists.mp h2
    exact stripFrontmatterL_ne_of_match h1 hk heq
  · intro hn
    by_cases h1 : startsWithDashes l = true
    · cases hk : findDashes (l.drop 3) with
      | none => exact stripFrontmatterL_of_no_close hk
      | some k => exact absurd ⟨h1, by rw [hk]; rfl⟩ hn
    · exact stripFrontmatterL_of_not_dashes (by simpa using h1)

/-- C2 (corrected): the stripper fires exactly when the input begins with the
three characters `---` (not necessarily alone on a line) and `---` occurs
again at index ≥ 3; inputs not of this shape are returned unchanged.  In the
PDFKit variant the replacement is additionally guarded: nothing is removed
unless the input begins with `---` followed by a newline. -/
theorem frontmatter_strip_characterization :
    (∀ l : List Char,
      stripFrontmatterL l = l ↔
        ¬(startsWithDashes l = true ∧ (findDashes (l.drop 3)).isSome = true)) ∧
    (∀ l : List Char, ['-', '-', '-', '\n'].isPrefixOf l = false →
      stripFrontmatterGuardedL l = l) := by
  constructor
  · exact stripFrontmatterL_eq_self_iff
  · intro l h
    unfold stripFrontmatterGuardedL
    rw [if_neg]
    simp [h]

theorem frontmatter_strip_characterization_witness :
    stripFrontmatterGuardedL ['x'] = ['x'] :=
  frontmatter_strip_characterization.2 ['x'] (by decide)

/-- C2 counterexample: on `---abc---xyz` the stripper removes
`---abc---` even though the input's first line is `---abc---xyz`, not a line
consisting solely of `---`; the claim's "if and only if the input begins
with a line consisting solely of `---`" is false on the code. -/
theorem frontmatter_strip_counterexample :
    stripFrontmatterL ['-', '-', '-', 'a', 'b', 'c', '-', '-', '-', 'x', 'y', 'z']
        = ['x', 'y', 'z'] ∧
      firstLineL ['-', '-', '-', 'a', 'b', 'c', '-', '-', '-', 'x', 'y', 'z']
        ≠ ['-', '-', '-'] := by
  decide

/-- C3 (corrected): inputs not beginning with `---` are returned unchanged,
and stripping is idempotent whenever the once-stripped result does not itself
begin with `---`; it is not idempotent in general. -/
theorem frontmatter_strip_conditional_idempotent :
    (∀ l : List Char, startsWithDashes l = false → stripFrontmatterL l = l) ∧
    (∀ l : List Char, startsWithDashes (stripFrontmatterL l) = false →
      stripFrontmatterL (stripFrontmatterL l) = stripFrontmatterL l) := by
  constructor
  · intro l h
    exact stripFrontmatterL_of_not_dashes h
  · intro l h
    exact stripFrontmatterL_of_not_dashes h

theorem frontmatter_strip_conditional_idempotent_witness :
    stripFrontmatterL ['a', 'b'] = ['a', 'b'] ∧
      stripFrontmatterL (stripFrontmatterL ['a', 'b'])
        = stripFrontmatterL ['a', 'b'] :=
  ⟨frontmatter_strip_conditional_idempotent.1 ['a', 'b'] (by decide),
   frontmatter_strip_conditional_idempotent.2 ['a', 'b'] (by decide)⟩

/-- C3 counterexample: on twelve dashes, one strip leaves six dashes and a
second strip removes them all, so stripping twice differs from stripping
once. -/
theorem frontmatter_strip_not_idempotent :
    stripFrontmatterL (stripFrontmatterL (List.replicate 12 '-'))
      ≠ stripFrontmatterL (List.replicate 12 '-') := by
  decide

/-! ## Direct-Draw inline handler

`markdownToPDF`'s `'inline'` case (src/server.js lines 365-394): three
sequential global regex replacements over the token's raw content —
`/\*\*(.*?)\*\*/g` (bold), `/\*(.*?)\*/g` (italic), `/`(.*?)`/g` (code) —
whose callbacks immediately emit the captured content as a styled text run
and return the empty string, followed by emission of whatever text remains
when it is not whitespace-only. -/

/-- Font selection as used by the source (`doc.font(...)` names). -/
inductive Font
  | helvetica
  | helveticaBold
  | helveticaOblique
  | courier
deriving DecidableEq, Repr

/-- One emitted text run: the font in effect and the characters written. -/
structure StyledRun where
  font : Font
  content : List Char
deriving DecidableEq, Repr

/-- Lazy-capture search for the closing delimiter `dl`: the least `n` such
that `dl` is a prefix of the input after `n` characters, none of which is a
newline (JavaScript `.` in `(.*?)` does not match `\n`). -/
def findClose (dl : List Char) : List Char → Option Nat
  | [] => if dl.isEmpty then some 0 else none
  | c :: rest =>
    if dl.isPrefixOf (c :: rest) then some 0
    else if c = '\n' then none
    else (findClose dl rest).map (· + 1)

/-- One global (`/g`) delimiter replacement pass, fuel-indexed for kernel
computability.  Scanning left to right: at a position where the delimiter
`d :: ds` matches and a lazy closing match exists, the captured content is
emitted as a run in font `f` and the scan resumes after the closing
delimiter (the callback returns `''`); otherwise the character is kept in
the residual string.  The fuel is always at least the input length, so the
fuel-exhausted branch is never reached. -/
def replaceEmitAux (d : Char) (ds : List Char) (f : Font) :
    Nat → List Char → List StyledRun × List Char
  | _, [] => ([], [])
  | 0, s => ([], s)
  | fuel + 1, c :: rest =>
    let dl := d :: ds
    if dl.isPrefixOf (c :: rest) then
      match findClose dl ((c :: rest).drop dl.length) with
      | some n =>
        let content := ((c :: rest).drop dl.length).take n
        let after := (c :: rest).drop (dl.length + n + dl.length)
        let p := replaceEmitAux d ds f fuel after
        (⟨f, content⟩ :: p.1, p.2)
      | none =>
        let p := replaceEmitAux d ds f fuel rest
        (p.1, c :: p.2)
    else
      let p := replaceEmitAux d ds f fuel rest
      (p.1, c :: p.2)

/-- `text.replace(delimiter-regex, callback-that-emits-and-returns-empty)`:
the list of runs emitted during the pass and the residual string. -/
def replaceEmit (d : Char) (ds : List Char) (f : Font) (s : List Char) :
    List StyledRun × List Char :=
  replaceEmitAux d ds f s.length s

/-- The three passes of the inline handler in source order: bold `**`, then
italic `*`, then code `` ` ``; returns all emitted styled runs (in emission
order) and the residual text left for the final `doc.text(text)`. -/
def inlineMatched (s : List Char) : List StyledRun × List Char :=
  let p1 := replaceEmit '*' ['*'] Font.helveticaBold s
  let p2 := replaceEmit '*' [] Font.helveticaOblique p1.2
  let p3 := replaceEmit '`' [] Font.courier p2.2
  (p1.1 ++ p2.1 ++ p3.1, p3.2)

/-- `text.trim()` truthiness: the list has a non-whitespace character. -/
def anyNonWs (l : List Char) : Bool :=
  l.any (fun c => !(isJsWhitespace c))

/-- Every text run emitted for one inline token, in emission order.  Each
substitution callback restores the font to plain Helvetica, so the residual
text is written in the ambient font only when no substitution fired. -/
def inlineEmit (ambient : Font) (s : List Char) : List StyledRun :=
  (inlineMatched s).1 ++
    (if anyNonWs (inlineMatched s).2 then
      [⟨if (inlineMatched s).1.isEmpty then ambient else Font.helvetica,
        (inlineMatched s).2⟩]
     else [])

/-- Concatenation of the emitted runs' characters, in emission order. -/
def emittedText (runs : List StyledRun) : List Char :=
  (runs.map StyledRun.content).flatten

/-- One delimiter pass that removes matched delimiters but keeps the
captured content in place; used only to define `visibleChars`. -/
def stripDelimsAux (d : Char) (ds : List Char) : Nat → List Char → List Char
  | _, [] => []
  | 0, s => s
  | fuel + 1, c :: rest =>
    let dl := d :: ds
    if dl.isPrefixOf (c :: rest) then
      match findClose dl ((c :: rest).drop dl.length) with
      | some n =>
        ((c :: rest).drop dl.length).take n ++
          stripDelimsAux d ds fuel ((c :: rest).drop (dl.length + n + dl.length))
      | none => c :: stripDelimsAux d ds fuel rest
    else c :: stripDelimsAux d ds fuel rest

def stripDelims (d : Char) (ds : List Char) (s : List Char) : List Char :=
  stripDelimsAux d ds s.length s

/-- Modelled from the spec: the "visible characters" of an inline token —
the token's content with matched style delimiters (`**`, `*`, `` ` ``)
removed and their captured content kept in document position. -/
def visibleChars (s : List Char) : List Char :=
  stripDelims '`' [] (stripDelims '*' [] (stripDelims '*' ['*'] s))

lemma replaceEmitAux_of_not_mem (d : Char) (ds : List Char) (f : Font) :
    ∀ (fuel : Nat) (s : List Char), d ∉ s →
      replaceEmitAux d ds f fuel s = ([], s) := by
  intro fuel
  induction fuel with
  | zero => intro s _; cases s <;> rfl
  | succ n ih =>
    intro s hs
    cases s with
    | nil => rfl
    | cons c rest =>
      have hdc : (d == c) = false := by
        simp only [beq_eq_false_iff_ne]
        intro h
        exact hs (h ▸ List.mem_cons_self _ _)
      have hpre : (d :: ds).isPrefixOf (c :: rest) = false := by
        simp [List.isPrefixOf, hdc]
      have hrest : d ∉ rest := fun h => hs (List.mem_cons_of_mem _ h)
      simp [replaceEmitAux, hpre, ih rest hrest]

lemma replaceEmit_of_not_mem (d : Char) (ds : List Char) (f : Font)
    {s : List Char} (h : d ∉ s) : replaceEmit d ds f s = ([], s) :=
  replaceEmitAux_of_not_mem d ds f s.length s h

/-- C1 counterexample: on the inline content `x **b**` (no code spans or
code blocks) the handler emits the bold span `b` during the substitution
pass and only afterwards the residual `x `, so the emitted characters are
`bx ` while the visible characters in document order are `x b`; the claimed
exactly-once-in-document-order emission is false on the code. -/
theorem inline_emission_counterexample :
    emittedText (inlineEmit Font.helvetica ['x', ' ', '*', '*', 'b', '*', '*'])
        = ['b', 'x', ' '] ∧
      visibleChars ['x', ' ', '*', '*', 'b', '*', '*'] = ['x', ' ', 'b'] ∧
      emittedText (inlineEmit Font.helvetica ['x', ' ', '*', '*', 'b', '*', '*'])
        ≠ visibleChars ['x', ' ', '*', '*', 'b', '*', '*'] := by
  decide

/-- C1 (corrected): when the inline content contains none of the style
delimiter characters `*` and `` ` `` and is not whitespace-only, it is
emitted exactly once, unchanged and in document order, as a single run in
the ambient font.  When delimiters are present, styled span contents are
emitted during the substitution passes, before the surrounding unstyled
text, so emission order need not follow document order. -/
theorem inline_emission_plain (ambient : Font) (s : List Char)
    (hstar : '*' ∉ s) (htick : '`' ∉ s) (hws : anyNonWs s = true) :
    inlineEmit ambient s = [⟨ambient, s⟩] := by
  have hm : inlineMatched s = ([], s) := by
    simp [inlineMatched, replaceEmit_of_not_mem '*' ['*'] Font.helveticaBold hstar,
      replaceEmit_of_not_mem '*' [] Font.helveticaOblique hstar,
      replaceEmit_of_not_mem '`' [] Font.courier htick]
  simp [inlineEmit, hm, hws]

theorem inline_emission_plain_witness :
    '*' ∉ ['h', 'i', ' ', 't'] ∧ '`' ∉ ['h', 'i', ' ', 't'] ∧
      anyNonWs ['h', 'i', ' ', 't'] = true ∧
      inlineEmit Font.helvetica ['h', 'i', ' ', 't']
        = [⟨Font.helvetica, ['h', 'i', ' ', 't']⟩] :=
  ⟨by decide, by decide, by decide,
   inline_emission_plain Font.helvetica ['h', 'i', ' ', 't']
     (by decide) (by decide) (by decide)⟩

/-! ## Direct-Draw drawing-instruction model

The full `markdownToPDF` token walk (src/server.js lines 337-434), embedded
as a fold over the token stream producing a list of drawing instructions and
a document state.  The vertical advance performed internally by the external
PDF library when text is written is a model parameter `adv`; the local
`currentY` bookkeeping variable of the source is carried faithfully even
though the source never reads it. -/

/-- Drawing instructions issued against the PDFKit document. -/
inductive Instr
  | setFont (f : Font)
  | setFontSize (n : Int)
  | setFillColor (color : String)
  | writeText (content : List Char) (continued centered : Bool)
      (indent : Nat) (pos : Option (Int × Int))
  | rect (x y w h : Int) (fill strokeColor : String)
  | line (x1 y1 x2 y2 : Int) (strokeColor : String)
  | newPage
deriving DecidableEq, Repr

/-- Document cursor and font state (`doc.x`, `doc.y`, current font and size)
plus the source's local `currentY` accumulator. -/
structure DocState where
  x : Int
  y : Int
  font : Font
  fontSize : Int
  currentY : Int
deriving DecidableEq, Repr

/-- Markdown-it token stream shapes handled by the `switch` in
`markdownToPDF`. -/
inductive Token
  | headingOpen (level : Nat)
  | headingClose
  | paragraphOpen
  | paragraphClose
  | inline (content : List Char)
  | codeBlock (content : List Char)
  | bulletListOpen
  | listItemOpen
  | listItemClose
  | hr
deriving DecidableEq, Repr

/-- `Math.max(24 - (level * 2), 12)` from the `heading_open` case. -/
def headingFontSize (level : Nat) : Int :=
  max (24 - 2 * (level : Int)) 12

/-- `token.content.split('\n').length`. -/
def lineCount (content : List Char) : Nat :=
  content.count '\n' + 1

/-- The instruction triple emitted by one substitution callback:
`doc.font(style).text(content, { continued: true }); doc.font('Helvetica')`. -/
def styledRunInstrs (r : StyledRun) : List Instr :=
  [Instr.setFont r.font,
   Instr.writeText r.content true false 0 none,
   Instr.setFont Font.helvetica]

/-- All instructions issued by the `'inline'` case for one token. -/
def inlineInstrs (s : List Char) : List Instr :=
  ((inlineMatched s).1.map styledRunInstrs).flatten ++
    (if anyNonWs (inlineMatched s).2 then
      [Instr.writeText (inlineMatched s).2 false false 0 none]
     else [])

/-- One `switch (token.type)` step of `markdownToPDF`: the instructions
issued for the token and the updated document state.  `adv content` is the
external library's vertical advance for one `doc.text` call. -/
def tokenStep (adv : List Char → Int) (st : DocState) :
    Token → List Instr × DocState
  | Token.headingOpen level =>
    ([Instr.setFontSize (headingFontSize level), Instr.setFont Font.helveticaBold],
     { st with font := Font.helveticaBold, fontSize := headingFontSize level,
               currentY := st.currentY + 10 })
  | Token.headingClose =>
    ([Instr.setFont Font.helvetica, Instr.setFontSize 12],
     { st with font := Font.helvetica, fontSize := 12,
               currentY := st.currentY + 10 })
  | Token.paragraphOpen => ([], { st with currentY := st.currentY + 5 })
  | Token.paragraphClose => ([], { st with currentY := st.currentY + 10 })
  | Token.inline content =>
    if content.isEmpty then ([], st)
    else
      (inlineInstrs content,
       { st with
           font := if (inlineMatched content).1.isEmpty then st.font
                   else Font.helvetica,
           y := st.y + adv content })
  | Token.codeBlock content =>
    if content.isEmpty then ([], st)
    else
      ([Instr.rect (st.x - 10) (st.y - 5) 500 ((lineCount content : Int) * 15 + 10)
          "#f4f4f4" "#ddd",
        Instr.setFillColor "#000",
        Instr.setFont Font.courier,
        Instr.setFontSize 10,
        Instr.writeText content false false 0 (some (st.x, st.y)),
        Instr.setFont Font.helvetica,
        Instr.setFontSize 12],
       { st with font := Font.helvetica, fontSize := 12,
                 y := st.y + adv content,
                 currentY := st.currentY + 25 })
  | Token.bulletListOpen => ([], { st with currentY := st.currentY + 5 })
  | Token.listItemOpen =>
    ([Instr.writeText ['•', ' '] true false 20 none],
     { st with y := st.y + adv ['•', ' '] })
  | Token.listItemClose => ([], { st with currentY := st.currentY + 5 })
  | Token.hr =>
    ([Instr.line 50 st.y 550 st.y "#ccc"],
     { st with currentY := st.currentY + 20 })

/-- `tokens.forEach(token => { switch ... })`: the whole instruction stream
and final state of one `markdownToPDF` call. -/
def runTokens (adv : List Char → Int) (st : DocState) :
    List Token → List Instr × DocState
  | [] => ([], st)
  | t :: ts =>
    let p1 := tokenStep adv st t
    let p2 := runTokens adv p1.2 ts
    (p1.1 ++ p2.1, p2.2)

/-- Fresh `new PDFDocument({ margin: 50, size: 'A4' })` state: cursor at the
top-left margin with the library's default body font (external library
defaults). -/
def initDoc : DocState :=
  { x := 50, y := 50, font := Font.helvetica, fontSize := 12, currentY := 50 }

/-- Usable vertical extent of one page: A4 page height (841.89pt, an
external library preset, rounded here to 842) minus the 50pt top and bottom
margins from the source's `PDFDocument` options. -/
def usablePageHeight : Int := 742

lemma styledRunInstrs_no_newPage (r : StyledRun) :
    Instr.newPage ∉ styledRunInstrs r := by
  simp [styledRunInstrs]

lemma inlineInstrs_no_newPage (c : List Char) :
    Instr.newPage ∉ inlineInstrs c := by
  intro hmem
  rcases List.mem_append.mp hmem with h | h
  · rcases List.mem_flatten.mp h with ⟨l, hl, hx⟩
    rcases List.mem_map.mp hl with ⟨r, _, rfl⟩
    exact styledRunInstrs_no_newPage r hx
  · split at h <;> simp_all

lemma tokenStep_no_newPage (adv : List Char → Int) (st : DocState) (t : Token) :
    Instr.newPage ∉ (tokenStep adv st t).1 := by
  cases t with
  | inline content =>
    by_cases hc : content.isEmpty <;>
      simp [tokenStep, hc, inlineInstrs_no_newPage]
  | codeBlock content =>
    by_cases hc : content.isEmpty <;> simp [tokenStep, hc]
  | _ => simp [tokenStep]

/-- C4 (corrected): `markdownToPDF` contains no page-break handling at all —
for every token stream the emitted instruction stream contains no new-page
instruction (and hence the function never resets the cursor to the top
margin of a fresh page); vertical placement of text is left entirely to the
external PDF library, and code-block rectangles are sized by line count
without regard to the page's usable height. -/
theorem direct_draw_never_breaks_page (adv : List Char → Int) (st : DocState)
    (tokens : List Token) : Instr.newPage ∉ (runTokens adv st tokens).1 := by
  induction tokens generalizing st with
  | nil => simp [runTokens]
  | cons t ts ih =>
    intro hmem
    rcases List.mem_append.mp hmem with h | h
    · exact tokenStep_no_newPage adv st t h
    · exact ih _ h

set_option maxRecDepth 4000

/-- C4 counterexample: a single 50-line code block makes `markdownToPDF`
issue a background rectangle of height `50 * 15 + 10 = 760`, exceeding the
usable page height of 742, while the instruction stream contains no
new-page instruction — so no page-break policy places this drawing operation
on a new page in full. -/
theorem direct_draw_oversized_rect :
    Instr.rect 40 45 500 760 "#f4f4f4" "#ddd"
        ∈ (runTokens (fun _ => 0) initDoc
            [Token.codeBlock (List.replicate 49 '\n' ++ ['x'])]).1 ∧
      (760 : Int) > usablePageHeight ∧
      Instr.newPage ∉ (runTokens (fun _ => 0) initDoc
            [Token.codeBlock (List.replicate 49 '\n' ++ ['x'])]).1 := by
  decide

/-- C7 (confirmed): the heading font size `max(24 - 2*level, 12)` is
strictly decreasing over heading levels 1 through 6 and never falls below
the floor of 12. -/
theorem heading_font_size_decreasing :
    (∀ l1 l2 : Nat, 1 ≤ l1 → l1 < l2 → l2 ≤ 6 →
      headingFontSize l2 < headingFontSize l1) ∧
    (∀ l : Nat, 1 ≤ l → l ≤ 6 → 12 ≤ headingFontSize l) := by
  have he : ∀ l : Nat, l ≤ 6 → headingFontSize l = 24 - 2 * (l : Int) := by
    intro l hl
    have hcast : (l : Int) ≤ 6 := by exact_mod_cast hl
    simp only [headingFontSize]
    rw [max_eq_left (by omega)]
  constructor
  · intro l1 l2 h1 h2 h3
    rw [he l1 (by omega), he l2 h3]
    have : (l1 : Int) < (l2 : Int) := by exact_mod_cast h2
    omega
  · intro l h1 h2
    rw [he l h2]
    have hcast : (l : Int) ≤ 6 := by exact_mod_cast h2
    omega

theorem heading_font_size_decreasing_witness :
    headingFontSize 2 < headingFontSize 1 ∧ 12 ≤ headingFontSize 6 :=
  ⟨heading_font_size_decreasing.1 1 2 (by decide) (by decide) (by decide),
   heading_font_size_decreasing.2 6 (by decide) (by decide)⟩

/-! ## PDFKit handler document prefix

The PDFKit variant's `POST /generate-pdf` handler (src/server.js lines
474-482) writes a fixed title before converting the Markdown:
`doc.fontSize(20).font('Helvetica-Bold').text('Generated Document',
{ align: 'center' }); doc.moveDown(2); markdownToPDF(doc, markdown);`. -/

/-- The instructions issued for the fixed title line. -/
def titleInstrs : List Instr :=
  [Instr.setFontSize 20, Instr.setFont Font.helveticaBold,
   Instr.writeText "Generated Document".data false true 0 none]

/-- The whole instruction stream of one successful PDFKit request body:
title, `moveDown(2)` (vertical advance `mdAdv`, external library), then the
`markdownToPDF` token walk starting from the post-title document state (the
handler never restores the body font before calling `markdownToPDF`). -/
def pdfkitDocInstrs (adv : List Char → Int) (mdAdv : Int)
    (tokens : List Token) : List Instr :=
  titleInstrs ++
    (runTokens adv
      { x := 50, y := 50 + adv "Generated Document".data + mdAdv,
        font := Font.helveticaBold, fontSize := 20,
        currentY := 50 + adv "Generated Document".data + mdAdv }
      tokens).1

/-- Whether an instruction writes text. -/
def isWriteText : Instr → Bool
  | Instr.writeText .. => true
  | _ => false

/-- The font and size in effect when the first text of the stream is
written, starting from font `f0` at size `sz0`. -/
def fontAtFirstWrite : List Instr → Font → Int → Option (Font × Int)
  | [], _, _ => none
  | Instr.setFont f :: rest, _, sz => fontAtFirstWrite rest f sz
  | Instr.setFontSize n :: rest, f, _ => fontAtFirstWrite rest f n
  | i :: rest, f, sz =>
    if isWriteText i then some (f, sz) else fontAtFirstWrite rest f sz

/-- C9 (confirmed): for every token stream and every choice of the external
vertical-advance model, the first text written by the PDFKit handler is the
centered title `Generated Document`, written in Helvetica-Bold at size 20,
before any instruction derived from the submitted Markdown. -/
theorem pdfkit_title_first (adv : List Char → Int) (mdAdv : Int)
    (f0 : Font) (sz0 : Int) (tokens : List Token) :
    (pdfkitDocInstrs adv mdAdv tokens).find? isWriteText
        = some (Instr.writeText "Generated Document".data false true 0 none) ∧
      fontAtFirstWrite (pdfkitDocInstrs adv mdAdv tokens) f0 sz0
        = some (Font.helveticaBold, 20) := by
  constructor
  · simp [pdfkitDocInstrs, titleInstrs, List.find?, isWriteText]
  · simp [pdfkitDocInstrs, titleInstrs, fontAtFirstWrite, isWriteText]

/-! ## Request handler and CORS

The `POST /generate-pdf` handlers of the Playwright variant (src/server.js
lines 58-231) and the Puppeteer variant (src/unnamed/part_001 lines 38-134)
share the same control flow: validate the body, strip frontmatter, launch a
browser, load content, capture the PDF, close the browser, send the
response; exceptions land in a catch block that closes the browser when it
was assigned (logging any close error) and sends a 500 with the original
error's message.  The model exposes which awaited step throws via boolean
parameters and counts launches and close invocations. -/

/-- Observable outcome of one request. -/
structure ReqOutcome where
  status : Nat
  errorMsg : Option String
  contentDisposition : Option String
  launches : Nat
  closeCalls : Nat
deriving DecidableEq, Repr

/-- `` `attachment; filename="${filename}"` `` — the template literal used by
all three variants. -/
def contentDispositionHeader (filename : String) : String :=
  "attachment; filename=\"" ++ filename ++ "\""

/-- The reflow-variant request handler.  `closeFails n` says whether the
`n`-th `browser.close()` invocation of this request throws.  Error message
strings stand for the thrown errors' `err.message` values. -/
def reflowHandler (markdown : Option String) (filename : Option String)
    (launchFails contentFails pdfFails : Bool)
    (closeFails : Nat → Bool) : ReqOutcome :=
  let fname := filename.getD "generated.pdf"
  match markdown with
  | none => ⟨400, some "Markdown is required", none, 0, 0⟩
  | some md =>
    if md = "" then ⟨400, some "Markdown is required", none, 0, 0⟩
    else if launchFails then
      -- `browser` was never assigned, so the catch block does not close it.
      ⟨500, some "launch failed", none, 1, 0⟩
    else if contentFails then
      -- catch: one close attempt; a failing close is logged and ignored.
      ⟨500, some "content failed", none, 1, 1⟩
    else if pdfFails then
      ⟨500, some "pdf failed", none, 1, 1⟩
    else if closeFails 0 then
      -- the success-path close throws: the catch block closes again.
      ⟨500, some "close failed", none, 1, 2⟩
    else
      ⟨200, none, some (contentDispositionHeader fname), 1, 1⟩

/-- C5 counterexample: when content loading and PDF capture both succeed but
the success-path `browser.close()` throws, control reaches the catch block
with `browser` assigned and `close` is invoked a second time — so on this
exit path the close routine runs twice, not exactly once. -/
theorem browser_close_twice :
    (reflowHandler (some "x") none false false false (fun _ => true)).closeCalls
      = 2 := by
  decide

/-- C5 (corrected): on every exit path of a request in which the browser was
launched, `close` is invoked at least once and at most twice; it is invoked
twice exactly when content loading and PDF capture succeed and the
success-path close itself throws.  When content loading or PDF capture
fails, the response is a 500 carrying the original failure's message even if
the catch-block close also fails (a close error is logged, never masking the
original failure). -/
theorem browser_close_bounds (md : String) (fname : Option String)
    (cf pf : Bool) (closeFails : Nat → Bool) (hmd : md ≠ "") :
    (1 ≤ (reflowHandler (some md) fname false cf pf closeFails).closeCalls ∧
        (reflowHandler (some md) fname false cf pf closeFails).closeCalls ≤ 2) ∧
      ((reflowHandler (some md) fname false cf pf closeFails).closeCalls = 2 ↔
        (cf = false ∧ pf = false ∧ closeFails 0 = true)) ∧
      (cf = true →
        (reflowHandler (some md) fname false cf pf closeFails).status = 500 ∧
        (reflowHandler (some md) fname false cf pf closeFails).errorMsg
          = some "content failed") ∧
      (cf = false → pf = true →
        (reflowHandler (some md) fname false cf pf closeFails).status = 500 ∧
        (reflowHandler (some md) fname false cf pf closeFails).errorMsg
          = some "pdf failed") := by
  cases cf <;> cases pf <;> cases h : closeFails 0 <;>
    simp [reflowHandler, hmd, h]

theorem browser_close_bounds_witness :
    (1 ≤ (reflowHandler (some "x") none false true false (fun _ => false)).closeCalls ∧
        (reflowHandler (some "x") none false true false (fun _ => false)).closeCalls ≤ 2) ∧
      ((reflowHandler (some "x") none false true false (fun _ => false)).closeCalls = 2 ↔
        (true = false ∧ false = false ∧ (fun _ : Nat => false) 0 = true)) ∧
      (true = true →
        (reflowHandler (some "x") none false true false (fun _ => false)).status = 500 ∧
        (reflowHandler (some "x") none false true false (fun _ => false)).errorMsg
          = some "content failed") ∧
      (true = false → false = true →
        (reflowHandler (some "x") none false true false (fun _ => false)).status = 500 ∧
        (reflowHandler (some "x") none false true false (fun _ => false)).errorMsg
          = some "pdf failed") :=
  browser_close_bounds "x" none true false (fun _ => false) (by decide)

/-- C6 (confirmed): a request whose `markdown` field is missing or empty
produces HTTP 400 with error `Markdown is required`, no browser launch, no
close, and no PDF headers — regardless of every other condition. -/
theorem missing_markdown_rejected (markdown fname : Option String)
    (lf cf pf : Bool) (closeFails : Nat → Bool)
    (h : markdown = none ∨ markdown = some "") :
    reflowHandler markdown fname lf cf pf closeFails
      = ⟨400, some "Markdown is required", none, 0, 0⟩ := by
  rcases h with rfl | rfl <;> simp [reflowHandler]

theorem missing_markdown_rejected_witness :
    reflowHandler none none false false false (fun _ => false)
      = ⟨400, some "Markdown is required", none, 0, 0⟩ :=
  missing_markdown_rejected none none false false false (fun _ => false)
    (Or.inl rfl)

/-- C10 (confirmed): on every successful request the user-supplied filename
is inserted character-for-character, unescaped, between the fixed prefix
`attachment; filename="` and a closing double quote — including when it
contains double-quote or control characters. -/
theorem filename_inserted_verbatim (md fname : String)
    (closeFails : Nat → Bool) (hmd : md ≠ "") (hcl : closeFails 0 = false) :
    (reflowHandler (some md) (some fname) false false false closeFails).contentDisposition
        = some (contentDispositionHeader fname) ∧
      (contentDispositionHeader fname).data
        = "attachment; filename=\"".data ++ fname.data ++ "\"".data := by
  constructor
  · simp [reflowHandler, hmd, hcl]
  · simp [contentDispositionHeader, String.data_append]

theorem filename_inserted_verbatim_witness :
    (reflowHandler (some "x") (some "a\"\rb") false false false
        (fun _ => false)).contentDisposition
      = some (contentDispositionHeader "a\"\rb") ∧
      (contentDispositionHeader "a\"\rb").data
        = "attachment; filename=\"".data ++ "a\"\rb".data ++ "\"".data :=
  filename_inserted_verbatim "x" "a\"\rb" (fun _ => false) (by decide) rfl

/-! ## CORS

The Playwright variant configures an origin allow-list (src/server.js lines
9-28); the PDFKit variant (line 333) and the Puppeteer variant
(src/unnamed/part_001 line 7) call `app.use(cors())` with no options, which
accepts every origin (external `cors` package default). -/

/-- The `allowedOrigins` array of the Playwright variant. -/
def allowedOrigins : List String :=
  ["https://app.brushly.art", "https://dev--brushly.netlify.app"]

/-- `if (!origin || allowedOrigins.indexOf(origin) !== -1) allow else error`. -/
def playwrightCorsAccepts : Option String → Bool
  | none => true
  | some o => allowedOrigins.contains o

/-- Modelled from the external `cors` package: `cors()` with no options
reflects every origin, so every request is accepted. -/
def defaultCorsAccepts : Option String → Bool := fun _ => true

/-- The three deployment variants of the service. -/
inductive Variant
  | playwright
  | pdfkit
  | puppeteer
deriving DecidableEq, Repr

/-- CORS acceptance per variant. -/
def corsAccepts : Variant → Option String → Bool
  | Variant.playwright, o => playwrightCorsAccepts o
  | Variant.pdfkit, o => defaultCorsAccepts o
  | Variant.puppeteer, o => defaultCorsAccepts o

/-- C8 counterexample: the PDFKit variant accepts the origin
`https://evil.example`, which is neither absent nor in the allow-list, so
the service-wide if-and-only-if acceptance claim is false on the code. -/
theorem cors_accepts_foreign_origin :
    corsAccepts Variant.pdfkit (some "https://evil.example") = true ∧
      "https://evil.example" ∉ allowedOrigins ∧
      (some "https://evil.example" : Option String) ≠ none := by
  refine ⟨rfl, by decide, by decide⟩

/-- C8 (corrected): only the Playwright variant enforces the allow-list —
it accepts a request exactly when the Origin header is absent or equal to
one of the two allowed origins; the PDFKit and Puppeteer variants use the
default CORS middleware and accept every origin. -/
theorem cors_allow_list_playwright_only :
    (∀ s : String, corsAccepts Variant.playwright (some s) = true ↔
      (s = "https://app.brushly.art" ∨ s = "https://dev--brushly.netlify.app")) ∧
      corsAccepts Variant.playwright none = true ∧
      (∀ o : Option String, corsAccepts Variant.pdfkit o = true ∧
        corsAccepts Variant.puppeteer o = true) := by
  refine ⟨?_, rfl, fun o => ⟨rfl, rfl⟩⟩
  intro s
  simp [corsAccepts, playwrightCorsAccepts, allowedOrigins, List.contains_cons]

end PdfApi
